import Mathlib

/-!
Shallow embedding of the Event Hubs event-processor core:
`EventProcessor` (eventProcessor.ts) and `PartitionPump` (partitionPump
section of the receiver module).  Async calls to the store, the broker
and the user handlers are modelled by environment records supplying the
outcome (`Except JsError _`) of each awaited call; JS truthiness of
optional numbers and of the `retryable` field is modelled explicitly.
-/

/-- A JavaScript error value, as far as the pump's classification code
inspects it: whether `typeof err === "object"`, the truthiness of
`err.retryable`, and `err.name`. -/
structure JsError where
  isObject : Bool := true
  name : String := "Error"
  retryable : Bool := false
deriving DecidableEq

/-- `err.name` as read by the code: accessing `.name` on a non-object
yields `undefined`, which never equals a string literal. -/
def errName (e : JsError) : String :=
  if e.isObject then e.name else "undefined"

/-- CloseReason enum from eventProcessor.ts. -/
inductive CloseReason where
  | EventHubException
  | OwnershipLost
  | Shutdown
deriving DecidableEq

/-- Modelled from the spec: the `StartPosition` / `EventPosition` values
(eventPosition.ts is not under src/); §6 lists
`{earliest, latest, fromOffset(n), fromSequenceNumber(n), fromEnqueuedTime(t)}`. -/
inductive EventPosition where
  | earliest
  | latest
  | fromOffset (n : Int)
  | fromSequenceNumber (n : Int)
  | fromEnqueuedTime (t : Int)
deriving DecidableEq

/-- A received event; only the fields the embedding needs. -/
structure ReceivedEventData where
  body : String := ""
  offset : Int := 0
  sequenceNumber : Int := 0
deriving DecidableEq

/-- PartitionOwnership record from eventProcessor.ts; optional TS fields
become `Option`. -/
structure PartitionOwnership where
  eventHubName : String
  consumerGroupName : String
  ownerId : String
  partitionId : String
  ownerLevel : Int
  offset : Option Int := none
  sequenceNumber : Option Int := none
  lastModifiedTimeInMS : Option Int := none
  eTag : Option String := none
deriving DecidableEq

/-- EventProcessorOptions from eventProcessor.ts. -/
structure EventProcessorOptions where
  initialEventPosition : Option EventPosition := none
  maxBatchSize : Option Nat := none
  maxWaitTimeInSeconds : Option Nat := none
deriving DecidableEq

/-- JS truthiness of an optional number: `undefined` and `0` are falsy. -/
def numTruthy : Option Int → Bool
  | none => false
  | some n => n != 0

/-- Lookup in the tick's `partitionOwnershipMap`; the list is kept so that
the first matching key is the binding in force. -/
def lookupOwnership : List (String × PartitionOwnership) → String → Option PartitionOwnership
  | [], _ => none
  | (k, v) :: rest, pid => if k = pid then some v else lookupOwnership rest pid

/-- The JS `Map` built by `for (const ownership of partitionOwnership)
map.set(ownership.partitionId, ownership)`: a later `set` wins, hence the
reverse before first-match lookup. -/
def buildOwnershipMap (l : List PartitionOwnership) : List (String × PartitionOwnership) :=
  (l.map (fun o => (o.partitionId, o))).reverse

/-- EventProcessor._createPartitionOwnershipRequest: copy
`sequenceNumber`, `offset`, `eTag` from the previous record when present;
`ownerId := self`, `ownerLevel := 0`. -/
def createPartitionOwnershipRequest (selfId consumerGroupName eventHubName : String)
    (partitionOwnershipMap : List (String × PartitionOwnership))
    (partitionIdToClaim : String) : PartitionOwnership :=
  let previous := lookupOwnership partitionOwnershipMap partitionIdToClaim
  { ownerId := selfId
    partitionId := partitionIdToClaim
    consumerGroupName := consumerGroupName
    eventHubName := eventHubName
    sequenceNumber := match previous with
      | some p => p.sequenceNumber
      | none => none
    offset := match previous with
      | some p => p.offset
      | none => none
    eTag := match previous with
      | some p => p.eTag
      | none => none
    ownerLevel := 0
    lastModifiedTimeInMS := none }

/-- The `eventPosition` computed inside EventProcessor._claimOwnership:
`ownershipRequest.sequenceNumber ? EventPosition.fromSequenceNumber(...)
: this._processorOptions.initialEventPosition || EventPosition.earliest()`.
The condition is JS truthiness, so `sequenceNumber === 0` takes the
fallback branch. -/
def claimEventPosition (opts : EventProcessorOptions)
    (ownershipRequest : PartitionOwnership) : EventPosition :=
  if numTruthy ownershipRequest.sequenceNumber then
    EventPosition.fromSequenceNumber (ownershipRequest.sequenceNumber.getD 0)
  else
    match opts.initialEventPosition with
    | some p => p
    | none => EventPosition.earliest

/-- Observable outcome of EventProcessor._claimOwnership, given the
settlement of `partitionManager.claimOwnership([req])` and of
`pumpManager.createPump(...)`.  The code awaits `claimOwnership` but
discards its resolved value, so the `.ok` branch does not inspect the
returned list. -/
structure ClaimOutcome where
  contextConstructed : Bool
  factoryInvoked : Bool
  createPumpCalled : Bool
  positionPassed : Option EventPosition
  loggedFailure : Bool
deriving DecidableEq

/-- EventProcessor._claimOwnership: on a thrown error, log and return; on
resolution (the resolved list is ignored), build the context, call the
user factory, compute the event position, and call createPump; an error
from createPump is caught by the same catch and logged. -/
def claimOwnershipStep (opts : EventProcessorOptions) (ownershipRequest : PartitionOwnership)
    (claimResult : Except JsError (List PartitionOwnership))
    (createPumpResult : Except JsError Unit) : ClaimOutcome :=
  match claimResult with
  | .error _ =>
    { contextConstructed := false, factoryInvoked := false, createPumpCalled := false
      positionPassed := none, loggedFailure := true }
  | .ok _ =>
    let pos := claimEventPosition opts ownershipRequest
    match createPumpResult with
    | .ok _ =>
      { contextConstructed := true, factoryInvoked := true, createPumpCalled := true
        positionPassed := some pos, loggedFailure := false }
    | .error _ =>
      { contextConstructed := true, factoryInvoked := true, createPumpCalled := true
        positionPassed := some pos, loggedFailure := true }

/-- Modelled from the spec: PumpManager.createPump (pumpManager.ts is not
under src/).  §4.4 hands the computed `startPosition` to the pump it
constructs and starts; since the pump (in src) reads its start position
from `options.initialEventPosition`, createPump supplies the position
there. -/
def pumpOptionsOfCreatePump (opts : EventProcessorOptions)
    (startPosition : EventPosition) : EventProcessorOptions :=
  { opts with initialEventPosition := some startPosition }

/-- PartitionPump._receiveEvents line 730: the consumer is created at
`this._processorOptions.initialEventPosition || EventPosition.earliest()`
(an EventPosition object is always truthy). -/
def readerStartPosition (opts : EventProcessorOptions) : EventPosition :=
  match opts.initialEventPosition with
  | some p => p
  | none => EventPosition.earliest

/-- End-to-end position at which the broker reader for a claimed
partition is opened: the position computed by _claimOwnership, threaded
through createPump into the pump's options, read back by
_receiveEvents. -/
def claimedReaderPosition (selfId cg eh : String)
    (partitionOwnershipMap : List (String × PartitionOwnership)) (pid : String)
    (opts : EventProcessorOptions) : EventPosition :=
  readerStartPosition (pumpOptionsOfCreatePump opts
    (claimEventPosition opts
      (createPartitionOwnershipRequest selfId cg eh partitionOwnershipMap pid)))

/-- Observable user-visible and resource actions of a pump, in order. -/
inductive PumpAction where
  | processEvents (events : List ReceivedEventData)
  | processError (e : JsError)
  | closeReader
  | abortToken
  | userClose (reason : CloseReason)
deriving DecidableEq

/-- Mutable state of a PartitionPump. -/
structure PumpState where
  isReceiving : Bool := false
  receiverSet : Bool := false
  receiverClosed : Bool := false
  aborted : Bool := false
deriving DecidableEq

/-- Outcomes of the awaited calls inside PartitionPump.stop: the
receiver's `close()` and the optional user `close(reason)`. -/
structure StopEnv where
  closeResult : Except JsError Unit := .ok ()
  userCloseDefined : Bool := true
  userCloseResult : Except JsError Unit := .ok ()

/-- Result of one call to PartitionPump.stop. -/
structure StopResult where
  actions : List PumpAction
  state : PumpState
  result : Except JsError Unit

/-- PartitionPump.stop(reason): set `_isReceiving = false`; then, in a
try block: close the receiver when one was created, call
`_abortController.abort()`, and invoke the user's `close(reason)` when
defined; on any error, log and `throw err` (the error is rethrown). -/
def pumpStop (s : PumpState) (reason : CloseReason) (env : StopEnv) : StopResult :=
  let s0 := { s with isReceiving := false }
  if s0.receiverSet then
    match env.closeResult with
    | .error e => ⟨[.closeReader], s0, .error e⟩
    | .ok _ =>
      let s1 := { s0 with receiverClosed := true, aborted := true }
      if env.userCloseDefined then
        match env.userCloseResult with
        | .error e => ⟨[.closeReader, .abortToken, .userClose reason], s1, .error e⟩
        | .ok _ => ⟨[.closeReader, .abortToken, .userClose reason], s1, .ok ()⟩
      else ⟨[.closeReader, .abortToken], s1, .ok ()⟩
  else
    let s1 := { s0 with aborted := true }
    if env.userCloseDefined then
      match env.userCloseResult with
      | .error e => ⟨[.abortToken, .userClose reason], s1, .error e⟩
      | .ok _ => ⟨[.abortToken, .userClose reason], s1, .ok ()⟩
    else ⟨[.abortToken], s1, .ok ()⟩

/-- Environment for one iteration of the receive loop: the settlement of
`receiveBatch`, whether an external `stop()` flipped `_isReceiving`
during the receive await or during the `processEvents` await, the
settlement of the user's `processEvents` and `processError`, and the
outcomes used by an internally triggered `stop`. -/
structure IterEnv where
  receiveResult : Except JsError (List ReceivedEventData)
  stopDuringReceive : Bool := false
  processEventsResult : Except JsError Unit := .ok ()
  stopDuringProcessEvents : Bool := false
  processErrorResult : Except JsError Unit := .ok ()
  stopEnv : StopEnv := {}

/-- Result of one loop iteration: the actions performed, the pump state
afterwards, and whether the loop body returned. -/
structure IterResult where
  actions : List PumpAction
  state : PumpState
  exited : Bool
deriving DecidableEq

/-- The catch block of PartitionPump._receiveEvents: if no longer
receiving, return without touching user code; otherwise forward the
error to the user's `processError` (whose own exception is caught and
only logged — `processErrorResult` has no effect on control flow); then,
when `typeof err !== "object" || !err.retryable`, stop the pump with
`OwnershipLost` when `err.name === "ReceiverDisconnectedError"` and with
`EventHubException` otherwise (an error thrown by `stop` is caught and
logged; either way the loop is over since `_isReceiving` is false);
when the error is a retryable object the loop continues. -/
def handleCatch (s : PumpState) (err : JsError) (stopEnv : StopEnv)
    (processErrorResult : Except JsError Unit) : IterResult :=
  if !s.isReceiving then ⟨[], s, true⟩
  else
    let _ := processErrorResult
    let forwarded := [PumpAction.processError err]
    if !err.isObject || !err.retryable then
      let reason := if errName err = "ReceiverDisconnectedError" then CloseReason.OwnershipLost
        else CloseReason.EventHubException
      let st := pumpStop s reason stopEnv
      ⟨forwarded ++ st.actions, st.state, true⟩
    else ⟨forwarded, s, false⟩

/-- One iteration of the `while (this._isReceiving)` loop of
PartitionPump._receiveEvents. -/
def runIter (s : PumpState) (env : IterEnv) : IterResult :=
  if !s.isReceiving then ⟨[], s, true⟩
  else
    match env.receiveResult with
    | .error err =>
      let s1 := if env.stopDuringReceive then { s with isReceiving := false } else s
      handleCatch s1 err env.stopEnv env.processErrorResult
    | .ok events =>
      let s1 := if env.stopDuringReceive then { s with isReceiving := false } else s
      if !s1.isReceiving then ⟨[], s1, true⟩
      else
        let dispatched := [PumpAction.processEvents events]
        let s2 := if env.stopDuringProcessEvents then { s1 with isReceiving := false } else s1
        match env.processEventsResult with
        | .ok _ => ⟨dispatched, s2, false⟩
        | .error err =>
          let r := handleCatch s2 err env.stopEnv env.processErrorResult
          ⟨dispatched ++ r.actions, r.state, r.exited⟩

/-- Aggregate result of running the receive loop over a finite schedule
of iteration environments; `exited = false` means the pump is still in
its loop after consuming the whole schedule. -/
structure LoopResult where
  actions : List PumpAction
  state : PumpState
  exited : Bool
deriving DecidableEq

/-- The receive loop over a finite schedule of environments. -/
def runPump : PumpState → List IterEnv → LoopResult
  | s, [] => ⟨[], s, false⟩
  | s, env :: rest =>
    let r := runIter s env
    if r.exited then ⟨r.actions, r.state, true⟩
    else
      let tailRes := runPump r.state rest
      ⟨r.actions ++ tailRes.actions, tailRes.state, tailRes.exited⟩

/-- PartitionPump.start(): set `_isReceiving = true`; run the optional
user `initialize` inside try/catch with a bare catch (its settlement,
`initializeResult`, is swallowed); then call `_receiveEvents` WITHOUT
awaiting it (the consumer is created inside that async call), and
resolve.  The first component is the settlement of the promise returned
by start(); the second is the independently running receive loop. -/
def pumpStart (initializeResult : Option (Except JsError Unit)) (s : PumpState)
    (envs : List IterEnv) : (Except JsError Unit) × LoopResult :=
  let _ := initializeResult
  let s1 := { s with isReceiving := true }
  let s2 := { s1 with receiverSet := true }
  (Except.ok (), runPump s2 envs)

/-- Mutable state of an EventProcessor (plus a counter of control-loop
launches, to make the effect of repeated `start()` observable). -/
structure EPState where
  isRunning : Bool := false
  hasAbortController : Bool := false
  aborted : Bool := false
  hasLoopTask : Bool := false
  loopsLaunched : Nat := 0
  pumps : List String := []
deriving DecidableEq

/-- EventProcessor.start(): if already running, log and return;
otherwise set `_isRunning`, create a fresh AbortController and launch
the control loop as a background task. -/
def processorStart (s : EPState) : EPState :=
  if s.isRunning then s
  else
    { s with isRunning := true, hasAbortController := true, aborted := false,
             hasLoopTask := true, loopsLaunched := s.loopsLaunched + 1 }

/-- Result of one call to EventProcessor.stop: the state afterwards, the
calls it made, and the settlement of the promise it returns.
`awaitedLoopTask` records whether there was an actual pending loop task
to await (`await undefined` completes immediately). -/
structure EPStopResult where
  state : EPState
  calledAbort : Bool
  removeAllCalled : Bool
  removedPumps : List (String × CloseReason)
  awaitedLoopTask : Bool
  result : Except JsError Unit

/-- EventProcessor.stop(): abort the controller when one exists, set
`_isRunning = false`; then, in a try block, await
`pumpManager.removeAllPumps(Shutdown)` and then the loop task; any error
is caught and logged, never rethrown, so the returned promise always
resolves.  `removeResult` is the settlement of `removeAllPumps`
(modelled from the spec §4.4: it stops every live pump with the given
reason; which pumps were removed when it rejects is unknown, so the
state is left unchanged in that branch). -/
def processorStop (s : EPState) (removeResult : Except JsError Unit) : EPStopResult :=
  let calledAbort := s.hasAbortController
  let s1 := { s with aborted := s.aborted || s.hasAbortController, isRunning := false }
  match removeResult with
  | .ok _ =>
    { state := { s1 with pumps := [] }
      calledAbort
      removeAllCalled := true
      removedPumps := s.pumps.map (fun p => (p, CloseReason.Shutdown))
      awaitedLoopTask := s.hasLoopTask
      result := .ok () }
  | .error _ =>
    { state := s1
      calledAbort
      removeAllCalled := true
      removedPumps := []
      awaitedLoopTask := false
      result := .ok () }

/-- A freshly constructed EventProcessor: `start()` never called, no
AbortController, no loop task, no pumps. -/
def freshProcessorState : EPState := {}

/-- Environment for one tick of EventProcessor._runLoop: the state of
the abort signal at the `while` check and after the two fetches, and the
settlement of each awaited call.  `loadBalanceChoice` stands in for
`partitionLoadBalancer.loadBalance` (partitionLoadBalancer.ts is not
under src/; modelled from the spec §4.1 as an externally supplied pick,
since its randomized choice does not affect the loop's control flow). -/
structure TickEnv where
  abortedAtStart : Bool := false
  listOwnershipResult : Except JsError (List PartitionOwnership) := .ok []
  getPartitionIdsResult : Except JsError (List String) := .ok []
  abortedAfterFetch : Bool := false
  loadBalanceChoice : Option String := none
  claimOwnershipResult : Except JsError (List PartitionOwnership) := .ok []
  createPumpResult : Except JsError Unit := .ok ()
  delayResult : Except JsError Unit := .ok ()

/-- Outcome of one tick: the loop either went around again (`logged`
tells whether some error was logged during the tick, by the tick's
catch-all or inside _claimOwnership) or left _runLoop. -/
inductive TickOutcome where
  | continueLoop (logged : Bool)
  | exited
deriving DecidableEq

/-- One tick of EventProcessor._runLoop: exit at the `while` check when
the signal is aborted; fetch ownership and partition ids (a rejection of
either is caught by the tick's catch-all, logged, and the loop
continues); return mid-tick when the signal fired during the fetches;
when the partition set is non-empty and the balancer picked a partition,
run _claimOwnership (which catches its own errors and only logs); then
await the cancellable delay, whose rejection is also caught and
logged. -/
def runTick (selfId cg eh : String) (opts : EventProcessorOptions) (env : TickEnv) :
    TickOutcome :=
  if env.abortedAtStart then .exited
  else
    match env.listOwnershipResult with
    | .error _ => .continueLoop true
    | .ok ownerships =>
      match env.getPartitionIdsResult with
      | .error _ => .continueLoop true
      | .ok partitionIds =>
        if env.abortedAfterFetch then .exited
        else
          let claimLogged :=
            if partitionIds.isEmpty then false
            else
              match env.loadBalanceChoice with
              | none => false
              | some pid =>
                (claimOwnershipStep opts
                  (createPartitionOwnershipRequest selfId cg eh
                    (buildOwnershipMap ownerships) pid)
                  env.claimOwnershipResult env.createPumpResult).loggedFailure
          match env.delayResult with
          | .error _ => .continueLoop true
          | .ok _ => .continueLoop claimLogged

/-- The control loop over a finite schedule of tick environments:
`some i` when the loop left _runLoop during tick `i`, `none` when it ran
every scheduled tick and is still looping. -/
def runTicks (selfId cg eh : String) (opts : EventProcessorOptions) :
    List TickEnv → Option Nat
  | [] => none
  | env :: rest =>
    match runTick selfId cg eh opts env with
    | .exited => some 0
    | .continueLoop _ => (runTicks selfId cg eh opts rest).map (· + 1)

/-- Whether the tick's environment had the abort signal fire at one of
the two places the loop observes it. -/
def tickAborts (env : TickEnv) : Bool :=
  env.abortedAtStart || env.abortedAfterFetch

/-! Concrete sample values used by counterexamples and witnesses. -/

/-- A previous ownership record whose checkpointed sequence number is 0. -/
def prevOwnershipZero : PartitionOwnership :=
  { eventHubName := "eh", consumerGroupName := "cg", ownerId := "other"
    partitionId := "1", ownerLevel := 0, sequenceNumber := some 0
    offset := some 10, eTag := some "etag1" }

/-- Ownership map holding only `prevOwnershipZero` under partition "1". -/
def ownershipMapZero : List (String × PartitionOwnership) := [("1", prevOwnershipZero)]

/-- A previous ownership record whose checkpointed sequence number is 42. -/
def prevOwnershipFortyTwo : PartitionOwnership :=
  { eventHubName := "eh", consumerGroupName := "cg", ownerId := "other"
    partitionId := "1", ownerLevel := 0, sequenceNumber := some 42
    offset := some 10, eTag := some "etag2" }

/-- Ownership map holding only `prevOwnershipFortyTwo` under partition "1". -/
def ownershipMapFortyTwo : List (String × PartitionOwnership) := [("1", prevOwnershipFortyTwo)]

/-- An ownership request for a partition with no previous record. -/
def claimRequestSample : PartitionOwnership :=
  { eventHubName := "eh", consumerGroupName := "cg", ownerId := "me"
    partitionId := "0", ownerLevel := 0 }

/-! Theorems. -/

/-- Claim C1, counterexample: a previous ownership record that contains the
checkpointed sequence number 0 does NOT lead to a reader opened at
`fromSequenceNumber(0)`; the JS truthiness test in _claimOwnership sends
0 down the fallback branch, so the reader opens at `earliest`. -/
theorem c1_zero_sequence_counterexample :
    prevOwnershipZero.sequenceNumber = some 0 ∧
    claimedReaderPosition "me" "cg" "eh" ownershipMapZero "1" { } = EventPosition.earliest ∧
    claimedReaderPosition "me" "cg" "eh" ownershipMapZero "1" { } ≠
      EventPosition.fromSequenceNumber 0 := by
  refine ⟨rfl, rfl, ?_⟩
  decide

/-- Claim C1 (amended): for a pump created after a successful claim, if the
previous ownership record contains a NONZERO sequence number n, the broker
reader is opened at `fromSequenceNumber(n)`; when the record's sequence
number is absent or 0 (JS-falsy), the start position falls back to the
processor-level `initialEventPosition` and to `earliest` when that is
unset. -/
theorem c1_reader_position_amended (selfId cg eh : String)
    (m : List (String × PartitionOwnership)) (pid : String)
    (opts : EventProcessorOptions) (prev : PartitionOwnership) (n : Int)
    (hprev : lookupOwnership m pid = some prev) :
    (prev.sequenceNumber = some n → n ≠ 0 →
      claimedReaderPosition selfId cg eh m pid opts = EventPosition.fromSequenceNumber n) ∧
    (prev.sequenceNumber = none ∨ prev.sequenceNumber = some 0 →
      claimedReaderPosition selfId cg eh m pid opts = readerStartPosition opts) := by
  constructor
  · intro hseq hn
    simp [claimedReaderPosition, readerStartPosition, pumpOptionsOfCreatePump,
      claimEventPosition, createPartitionOwnershipRequest, hprev, hseq, numTruthy, hn]
  · intro hseq
    rcases hseq with h | h <;>
      simp [claimedReaderPosition, readerStartPosition, pumpOptionsOfCreatePump,
        claimEventPosition, createPartitionOwnershipRequest, hprev, h, numTruthy]

/-- Claim C1, witness: with a previous record checkpointed at sequence
number 42, the reader for the re-claimed partition opens at
`fromSequenceNumber(42)`. -/
theorem c1_reader_position_witness :
    claimedReaderPosition "me" "cg" "eh" ownershipMapFortyTwo "1" { } =
      EventPosition.fromSequenceNumber 42 :=
  (c1_reader_position_amended "me" "cg" "eh" ownershipMapFortyTwo "1" { }
    prevOwnershipFortyTwo 42 rfl).1 rfl (by decide)

/-- Claim C2, code-bug demonstration: _claimOwnership discards the list
resolved by `partitionManager.claimOwnership`, so a call that resolves
with an EMPTY list (nothing was committed — "someone else won") is
treated exactly like success: the PartitionContext is constructed, the
user factory is invoked, createPump is called, and no failure is logged;
the outcome does not depend on the resolved list at all. -/
theorem c2_empty_claim_result_still_creates_pump :
    claimOwnershipStep { } claimRequestSample (Except.ok []) (Except.ok ()) =
      { contextConstructed := true, factoryInvoked := true, createPumpCalled := true
        positionPassed := some EventPosition.earliest, loggedFailure := false } ∧
    (∀ committed other : List PartitionOwnership, ∀ r : Except JsError Unit,
      claimOwnershipStep { } claimRequestSample (Except.ok committed) r =
        claimOwnershipStep { } claimRequestSample (Except.ok other) r) :=
  ⟨rfl, fun _ _ _ => rfl⟩

/-- A pump in its receive loop: receiving, consumer created. -/
def runningPumpState : PumpState := { isReceiving := true, receiverSet := true }

/-- Helper: every exit path of PartitionPump.stop leaves
`_isReceiving = false`. -/
theorem pumpStop_state_isReceiving (s : PumpState) (reason : CloseReason) (env : StopEnv) :
    (pumpStop s reason env).state.isReceiving = false := by
  unfold pumpStop
  by_cases h : s.receiverSet <;>
    cases hc : env.closeResult <;>
    by_cases hd : env.userCloseDefined <;>
    cases hu : env.userCloseResult <;>
    simp [h, hc, hd, hu]

/-- Claim C5, counterexample: when the user close handler throws, stop
DOES rethrow the error (after logging), contradicting "errors raised
during this sequence … are swallowed (stop does not rethrow)". -/
theorem c5_stop_rethrow_counterexample :
    (pumpStop runningPumpState CloseReason.Shutdown
      { userCloseResult := .error { name := "UserCloseBoom" } }).result =
      .error { name := "UserCloseBoom" } ∧
    (pumpStop runningPumpState CloseReason.Shutdown
      { userCloseResult := .error { name := "UserCloseBoom" } }).actions =
      [.closeReader, .abortToken, .userClose CloseReason.Shutdown] :=
  ⟨rfl, rfl⟩

/-- Claim C5 (amended): stop(reason) sets isReceiving to false, closes the
broker reader, cancels the in-flight receive via the abort token, and
invokes the user's close(reason); an error raised during this sequence —
including one thrown by the user's close handler — is logged and
RETHROWN by stop (the receive loop's own call sites catch it); stop is
idempotent on the pump state. -/
theorem c5_stop_amended (s : PumpState) (reason : CloseReason) (env : StopEnv) :
    (pumpStop s reason env).state.isReceiving = false ∧
    (s.receiverSet = true → env.closeResult = .ok () → env.userCloseDefined = true →
      env.userCloseResult = .ok () →
      pumpStop s reason env =
        ⟨[.closeReader, .abortToken, .userClose reason],
          { s with isReceiving := false, receiverClosed := true, aborted := true },
          .ok ()⟩) ∧
    (∀ e, s.receiverSet = true → env.closeResult = .ok () → env.userCloseDefined = true →
      env.userCloseResult = .error e →
      (pumpStop s reason env).actions = [.closeReader, .abortToken, .userClose reason] ∧
      (pumpStop s reason env).result = .error e) ∧
    (pumpStop (pumpStop s reason env).state reason env).state = (pumpStop s reason env).state := by
  refine ⟨pumpStop_state_isReceiving s reason env, ?_, ?_, ?_⟩
  · intro h1 h2 h3 h4
    simp [pumpStop, h1, h2, h3, h4]
  · intro e h1 h2 h3 h4
    refine ⟨?_, ?_⟩ <;> simp [pumpStop, h1, h2, h3, h4]
  · unfold pumpStop
    by_cases h : s.receiverSet <;>
      cases hc : env.closeResult <;>
      by_cases hd : env.userCloseDefined <;>
      cases hu : env.userCloseResult <;>
      simp [h, hc, hd, hu]

/-- Claim C5, witness: on the all-success environment, stop closes the
reader, aborts the token, invokes the user's close with the given
reason, and resolves. -/
theorem c5_stop_witness :
    pumpStop runningPumpState CloseReason.OwnershipLost { } =
      ⟨[.closeReader, .abortToken, .userClose CloseReason.OwnershipLost],
        { isReceiving := false, receiverSet := true, receiverClosed := true, aborted := true },
        .ok ()⟩ :=
  (c5_stop_amended runningPumpState CloseReason.OwnershipLost { }).2.1 rfl rfl rfl rfl

/-- Claim C7: if stop() was called while the receive was in flight — so
isReceiving is false when the await settles, whether with a batch or
with an error — the pump exits its loop performing NO user-visible
action: the batch is not dispatched to processEvents and the error (in
particular the pump's own cancellation) is not delivered to
processError. -/
theorem c7_stop_during_receive (s : PumpState) (env : IterEnv)
    (hrecv : s.isReceiving = true) (hstop : env.stopDuringReceive = true) :
    runIter s env = ⟨[], { s with isReceiving := false }, true⟩ := by
  unfold runIter
  cases h : env.receiveResult <;> simp [hrecv, hstop, handleCatch, h]

/-- Environment for C7's witness: the batch settles while an external
stop has already flipped isReceiving. -/
def stoppedDuringReceiveEnv : IterEnv :=
  { receiveResult := .ok [{ body := "late", offset := 5, sequenceNumber := 5 }]
    stopDuringReceive := true }

/-- Claim C7, witness: a concrete settled batch after a concurrent stop is
dropped without dispatch. -/
theorem c7_stop_during_receive_witness :
    runIter runningPumpState stoppedDuringReceiveEnv =
      ⟨[], { isReceiving := false, receiverSet := true }, true⟩ :=
  c7_stop_during_receive runningPumpState stoppedDuringReceiveEnv rfl rfl

/-- A plain user-thrown error: an object without a truthy retryable. -/
def plainUserError : JsError := { name := "Error" }

/-- Environment in which the user's processEvents throws a plain error. -/
def processEventsThrowEnv : IterEnv :=
  { receiveResult := .ok [], processEventsResult := .error plainUserError }

/-- Claim C3, counterexample: a pump whose processEvents throws a plain
(non-retryable) error does NOT remain in the Running state: the error is
routed to processError, but because it lands in the same catch as
receive errors and has no truthy `retryable`, the pump stops with
EventHubException after the very first iteration. -/
theorem c3_counterexample :
    (runIter runningPumpState processEventsThrowEnv).exited = true ∧
    (runIter runningPumpState processEventsThrowEnv).state.isReceiving = false ∧
    (runIter runningPumpState processEventsThrowEnv).actions =
      [.processEvents [], .processError plainUserError, .closeReader, .abortToken,
        .userClose CloseReason.EventHubException] :=
  ⟨rfl, rfl, rfl⟩

/-- Claim C3 (amended): when the user's processEvents throws and the pump
is still receiving, the exception is routed to processError (whose own
settlement never affects control flow — it is swallowed and logged); the
pump remains Running and iterates again ONLY when the thrown error is an
object with a truthy `retryable`; otherwise the pump stops, with
OwnershipLost when the error is named ReceiverDisconnectedError and with
EventHubException otherwise. -/
theorem c3_process_events_error_amended (s : PumpState) (env : IterEnv)
    (events : List ReceivedEventData) (e : JsError)
    (hrecv : s.isReceiving = true)
    (hok : env.receiveResult = .ok events)
    (hs1 : env.stopDuringReceive = false)
    (hs2 : env.stopDuringProcessEvents = false)
    (herr : env.processEventsResult = .error e) :
    ((runIter s env).actions.take 2 = [.processEvents events, .processError e]) ∧
    (e.isObject = true → e.retryable = true →
      runIter s env = ⟨[.processEvents events, .processError e], s, false⟩) ∧
    ((e.isObject = false ∨ e.retryable = false) →
      (runIter s env).exited = true ∧ (runIter s env).state.isReceiving = false) ∧
    ((e.isObject = false ∨ e.retryable = false) → env.stopEnv = { } → s.receiverSet = true →
      runIter s env =
        ⟨[.processEvents events, .processError e, .closeReader, .abortToken,
          .userClose (if errName e = "ReceiverDisconnectedError" then CloseReason.OwnershipLost
            else CloseReason.EventHubException)],
          { s with isReceiving := false, receiverClosed := true, aborted := true }, true⟩) ∧
    (∀ r, runIter s { env with processErrorResult := r } = runIter s env) := by
  refine ⟨?_, ?_, ?_, ?_, ?_⟩
  · by_cases h1 : e.isObject <;> by_cases h2 : e.retryable <;>
      simp [runIter, handleCatch, hrecv, hok, hs1, hs2, herr, h1, h2]
  · intro h1 h2
    simp [runIter, handleCatch, hrecv, hok, hs1, hs2, herr, h1, h2]
  · intro h
    rcases h with h | h <;>
      constructor <;>
      simp [runIter, handleCatch, hrecv, hok, hs1, hs2, herr, h,
        pumpStop_state_isReceiving]
  · intro h hse hrs
    rcases h with h | h <;>
      simp [runIter, handleCatch, hrecv, hok, hs1, hs2, herr, h, hse, hrs, pumpStop]
  · intro r
    cases env
    rfl

/-- A user error carrying a truthy retryable flag. -/
def retryableUserError : JsError := { name := "Error", retryable := true }

/-- Environment in which the user's processEvents throws a retryable
error object. -/
def processEventsRetryEnv : IterEnv :=
  { receiveResult := .ok [], processEventsResult := .error retryableUserError }

/-- Claim C3, witness: a retryable error object thrown by processEvents is
routed to processError and the pump keeps receiving. -/
theorem c3_process_events_error_witness :
    runIter runningPumpState processEventsRetryEnv =
      ⟨[.processEvents [], .processError retryableUserError], runningPumpState, false⟩ :=
  (c3_process_events_error_amended runningPumpState processEventsRetryEnv []
    retryableUserError rfl rfl rfl rfl rfl).2.1 rfl rfl

/-- A ReceiverDisconnectedError that is also marked retryable. -/
def retryableDisconnect : JsError :=
  { name := "ReceiverDisconnectedError", retryable := true }

/-- Environment: receiveBatch rejects with a retryable
ReceiverDisconnectedError. -/
def retryableDisconnectEnv : IterEnv := { receiveResult := .error retryableDisconnect }

/-- Claim C4, counterexample: the code tests `retryable` BEFORE the
ReceiverDisconnectedError name, not after as the claim orders it, so a
ReceiverDisconnectedError whose `retryable` is true makes the loop
continue — the pump does not stop with OwnershipLost. -/
theorem c4_counterexample :
    runIter runningPumpState retryableDisconnectEnv =
      ⟨[.processError retryableDisconnect], runningPumpState, false⟩ ∧
    (runIter runningPumpState retryableDisconnectEnv).state.isReceiving = true :=
  ⟨rfl, rfl⟩

/-- Claim C4 (amended): when receiveBatch rejects with err while the pump
is still receiving, err is first forwarded to processError; the
classification then tests `retryable` FIRST: an object with truthy
retryable continues the loop (even a ReceiverDisconnectedError); only
otherwise does the pump stop, with OwnershipLost when err.name is
ReceiverDisconnectedError and with EventHubException otherwise. -/
theorem c4_receive_error_amended (s : PumpState) (env : IterEnv) (e : JsError)
    (hrecv : s.isReceiving = true)
    (herr : env.receiveResult = .error e)
    (hstop : env.stopDuringReceive = false) :
    ((runIter s env).actions.head? = some (.processError e)) ∧
    (e.isObject = true → e.retryable = true →
      runIter s env = ⟨[.processError e], s, false⟩) ∧
    ((e.isObject = false ∨ e.retryable = false) →
      (runIter s env).exited = true ∧ (runIter s env).state.isReceiving = false) ∧
    ((e.isObject = false ∨ e.retryable = false) → env.stopEnv = { } → s.receiverSet = true →
      runIter s env =
        ⟨[.processError e, .closeReader, .abortToken,
          .userClose (if errName e = "ReceiverDisconnectedError" then CloseReason.OwnershipLost
            else CloseReason.EventHubException)],
          { s with isReceiving := false, receiverClosed := true, aborted := true }, true⟩) := by
  refine ⟨?_, ?_, ?_, ?_⟩
  · by_cases h1 : e.isObject <;> by_cases h2 : e.retryable <;>
      simp [runIter, handleCatch, hrecv, herr, hstop, h1, h2]
  · intro h1 h2
    simp [runIter, handleCatch, hrecv, herr, hstop, h1, h2]
  · intro h
    rcases h with h | h <;>
      constructor <;>
      simp [runIter, handleCatch, hrecv, herr, hstop, h, pumpStop_state_isReceiving]
  · intro h hse hrs
    rcases h with h | h <;>
      simp [runIter, handleCatch, hrecv, herr, hstop, h, hse, hrs, pumpStop]

/-- A ReceiverDisconnectedError without a retryable flag, as the broker
raises it when the partition is stolen. -/
def fatalDisconnect : JsError := { name := "ReceiverDisconnectedError" }

/-- Environment: receiveBatch rejects with a non-retryable
ReceiverDisconnectedError. -/
def fatalDisconnectEnv : IterEnv := { receiveResult := .error fatalDisconnect }

/-- Claim C4, witness: a non-retryable ReceiverDisconnectedError is
forwarded to processError and then stops the pump with OwnershipLost. -/
theorem c4_receive_error_witness :
    runIter runningPumpState fatalDisconnectEnv =
      ⟨[.processError fatalDisconnect, .closeReader, .abortToken,
        .userClose CloseReason.OwnershipLost],
        { isReceiving := false, receiverSet := true, receiverClosed := true, aborted := true },
        true⟩ :=
  (c4_receive_error_amended runningPumpState fatalDisconnectEnv fatalDisconnect
    rfl rfl rfl).2.2.2 (Or.inr rfl) rfl rfl

/-- Claim C9: the promise returned by PartitionPump.start() resolves as
soon as the optional initialize handler has settled (its exception, if
any, is swallowed): the settlement is `ok` for EVERY initialize outcome
and EVERY behaviour of the receive loop — the loop is launched without
being awaited, so no error arising in it, including from the very first
receiveBatch, propagates through start(); the loop itself runs from the
receiving state with the consumer created. -/
theorem c9_start_resolves (initializeResult : Option (Except JsError Unit))
    (s : PumpState) (envs : List IterEnv) :
    (pumpStart initializeResult s envs).1 = Except.ok () ∧
    (pumpStart initializeResult s envs).1 = (pumpStart initializeResult s []).1 ∧
    (pumpStart initializeResult s envs).1 = (pumpStart none s envs).1 ∧
    (pumpStart initializeResult s envs).2 =
      runPump { s with isReceiving := true, receiverSet := true } envs :=
  ⟨rfl, rfl, rfl, rfl⟩

/-- Helper: _runLoop leaves the loop only through the two points at which
it observes the abort signal. -/
theorem runTick_exit_aborts (selfId cg eh : String) (opts : EventProcessorOptions)
    (env : TickEnv) (h : runTick selfId cg eh opts env = .exited) :
    tickAborts env = true := by
  unfold runTick at h
  unfold tickAborts
  by_cases h1 : env.abortedAtStart
  · simp [h1]
  · simp only [h1, Bool.false_eq_true, if_false] at h ⊢
    rw [Bool.false_or]
    cases hlo : env.listOwnershipResult with
    | error e => rw [hlo] at h; simp at h
    | ok l =>
      rw [hlo] at h
      cases hpi : env.getPartitionIdsResult with
      | error e => rw [hpi] at h; simp at h
      | ok pids =>
        rw [hpi] at h
        by_cases h2 : env.abortedAfterFetch
        · exact h2
        · simp only [h2, Bool.false_eq_true, if_false] at h
          cases hd : env.delayResult <;> rw [hd] at h <;> simp at h

/-- Helper: a tick at which the signal never fires goes around again,
whatever the store, the broker, the balancer or the delay did. -/
theorem runTick_no_abort_continues (selfId cg eh : String) (opts : EventProcessorOptions)
    (env : TickEnv) (h : tickAborts env = false) :
    ∃ b, runTick selfId cg eh opts env = .continueLoop b := by
  unfold tickAborts at h
  rw [Bool.or_eq_false_iff] at h
  obtain ⟨h1, h2⟩ := h
  unfold runTick
  simp only [h1, h2, Bool.false_eq_true, if_false]
  cases env.listOwnershipResult with
  | error e => exact ⟨true, rfl⟩
  | ok l =>
    cases env.getPartitionIdsResult with
    | error e => exact ⟨true, rfl⟩
    | ok pids =>
      cases env.delayResult with
      | error e => exact ⟨_, rfl⟩
      | ok u => exact ⟨_, rfl⟩

/-- Helper: with no abort anywhere in the schedule, the control loop runs
every tick and is still alive. -/
theorem runTicks_no_abort (selfId cg eh : String) (opts : EventProcessorOptions)
    (envs : List TickEnv) (h : ∀ env ∈ envs, tickAborts env = false) :
    runTicks selfId cg eh opts envs = none := by
  induction envs with
  | nil => rfl
  | cons env rest ih =>
    obtain ⟨b, hb⟩ :=
      runTick_no_abort_continues selfId cg eh opts env (h env (List.mem_cons_self env rest))
    unfold runTicks
    rw [hb, ih (fun e he => h e (List.mem_cons_of_mem env he))]
    rfl

/-- Helper: if the control loop left _runLoop, the abort signal fired at
one of its observation points during some scheduled tick. -/
theorem runTicks_exit_aborts (selfId cg eh : String) (opts : EventProcessorOptions)
    (envs : List TickEnv) (i : Nat) (h : runTicks selfId cg eh opts envs = some i) :
    ∃ env ∈ envs, tickAborts env = true := by
  induction envs generalizing i with
  | nil => simp [runTicks] at h
  | cons env rest ih =>
    unfold runTicks at h
    cases ht : runTick selfId cg eh opts env with
    | exited =>
      exact ⟨env, List.mem_cons_self env rest,
        runTick_exit_aborts selfId cg eh opts env ht⟩
    | continueLoop b =>
      rw [ht] at h
      cases hr : runTicks selfId cg eh opts rest with
      | none => rw [hr] at h; simp at h
      | some j =>
        obtain ⟨e, he, ha⟩ := ih j hr
        exact ⟨e, List.mem_cons_of_mem env he, ha⟩

/-- Claim C6: every tick of the EventProcessor control loop catches and
logs a rejection of listOwnership, getPartitionIds, claimOwnership or
the inter-tick delay and goes around again; the loop leaves _runLoop
only when its abort signal has fired, never because of a store or
broker fault. -/
theorem c6_loop_survives_faults (selfId cg eh : String) (opts : EventProcessorOptions)
    (envs : List TickEnv) :
    ((∀ env ∈ envs, tickAborts env = false) → runTicks selfId cg eh opts envs = none) ∧
    (∀ i, runTicks selfId cg eh opts envs = some i → ∃ env ∈ envs, tickAborts env = true) ∧
    (∀ env : TickEnv, ∀ e : JsError, env.abortedAtStart = false →
      env.listOwnershipResult = .error e →
      runTick selfId cg eh opts env = .continueLoop true) ∧
    (∀ env : TickEnv, ∀ e l, env.abortedAtStart = false →
      env.listOwnershipResult = .ok l → env.getPartitionIdsResult = .error e →
      runTick selfId cg eh opts env = .continueLoop true) ∧
    (∀ env : TickEnv, ∀ e l pids, env.abortedAtStart = false →
      env.listOwnershipResult = .ok l → env.getPartitionIdsResult = .ok pids →
      env.abortedAfterFetch = false → env.delayResult = .error e →
      runTick selfId cg eh opts env = .continueLoop true) ∧
    (∀ env : TickEnv, ∀ e l pids pid, env.abortedAtStart = false →
      env.listOwnershipResult = .ok l → env.getPartitionIdsResult = .ok pids →
      env.abortedAfterFetch = false → pids.isEmpty = false →
      env.loadBalanceChoice = some pid → env.claimOwnershipResult = .error e →
      env.delayResult = .ok () →
      runTick selfId cg eh opts env = .continueLoop true) := by
  refine ⟨runTicks_no_abort selfId cg eh opts envs,
    fun i => runTicks_exit_aborts selfId cg eh opts envs i, ?_, ?_, ?_, ?_⟩
  · intro env e ha hlo
    simp [runTick, ha, hlo]
  · intro env e l ha hlo hpi
    simp [runTick, ha, hlo, hpi]
  · intro env e l pids ha hlo hpi hf hd
    simp [runTick, ha, hlo, hpi, hf, hd]
  · intro env e l pids pid ha hlo hpi hf hne hc hcl hd
    simp [runTick, claimOwnershipStep, ha, hlo, hpi, hf, hne, hc, hcl, hd]

/-- A tick during which the ownership store is down and no abort fires. -/
def storeFaultTick : TickEnv := { listOwnershipResult := .error { name := "StoreDown" } }

/-- Claim C6, witness: a schedule consisting of one store-fault tick is
survived — the tick logs and continues, and the loop is still alive. -/
theorem c6_loop_survives_faults_witness :
    runTicks "p" "cg" "eh" { } [storeFaultTick] = none ∧
    runTick "p" "cg" "eh" { } storeFaultTick = .continueLoop true := by
  have h := c6_loop_survives_faults "p" "cg" "eh" { } [storeFaultTick]
  refine ⟨h.1 ?_, h.2.2.1 storeFaultTick { name := "StoreDown" } rfl rfl⟩
  intro env henv
  simp only [List.mem_singleton] at henv
  subst henv
  rfl

/-- Claim C8: start() while running is ignored, so two consecutive starts
equal one; stop() aborts the control-loop token when one exists, removes
every pump with reason Shutdown, clears the pump set, awaits the loop
task, and resolves whatever removeAllPumps did (errors are logged, not
rethrown); a second stop() leaves the state unchanged and removes
nothing. -/
theorem c8_start_stop_idempotent (s : EPState) (removeResult : Except JsError Unit) :
    processorStart (processorStart s) = processorStart s ∧
    (processorStop s removeResult).result = .ok () ∧
    (processorStop s (.ok ())).calledAbort = s.hasAbortController ∧
    (processorStop s (.ok ())).state.isRunning = false ∧
    (processorStop s (.ok ())).removedPumps =
      s.pumps.map (fun p => (p, CloseReason.Shutdown)) ∧
    (processorStop s (.ok ())).state.pumps = [] ∧
    (processorStop s (.ok ())).awaitedLoopTask = s.hasLoopTask ∧
    (processorStop (processorStop s (.ok ())).state (.ok ())).state =
      (processorStop s (.ok ())).state ∧
    (processorStop (processorStop s (.ok ())).state (.ok ())).removedPumps = [] := by
  refine ⟨?_, ?_, rfl, rfl, rfl, rfl, rfl, ?_, rfl⟩
  · by_cases h : s.isRunning <;> simp [processorStart, h]
  · cases removeResult <;> rfl
  · simp [processorStop, Bool.or_assoc]

/-- Claim C10: stop() on a processor whose start() was never called is
safe: removeAllPumps(Shutdown) is still invoked, there is no abort
controller to cancel and no pending loop task to await (the await of the
undefined task completes immediately), and the returned promise resolves
without throwing, whatever removeAllPumps did. -/
theorem c10_stop_before_start_safe (removeResult : Except JsError Unit) :
    (processorStop freshProcessorState removeResult).result = .ok () ∧
    (processorStop freshProcessorState removeResult).removeAllCalled = true ∧
    (processorStop freshProcessorState removeResult).calledAbort = false ∧
    (processorStop freshProcessorState removeResult).awaitedLoopTask = false ∧
    (processorStop freshProcessorState removeResult).state.pumps = [] := by
  cases removeResult <;> exact ⟨rfl, rfl, rfl, rfl, rfl⟩
